import Mathlib

/-!
Verification of the orchestra repository's core invariants against a
shallow embedding of its Python sources.

Each section embeds one module of the source tree:
  * `orchestra/lib/message_queue.py`  (JSONL message queue)
  * `orchestra/backend/monitor.py` + `orchestra/lib/monitor.py`
    (hook HTTP endpoint, monitor registry, batching loop)
  * `cerb_code/lib/tmux_agent.py`     (TmuxProtocol: start / delete /
    toggle_pairing)
  * `cerb_code/runners/hook_monitor.py` (hook forwarder)
  * `cerb_code/lib/helpers.py`        (ensure_stable_git_location)

External effects (files, subprocesses, asyncio queues) are embedded as
explicit state passing; fallible code returns `Except` where the Python
raises.
-/

/- ----------------------------------------------------------------- -/
/- Message queue: orchestra/lib/message_queue.py                      -/
/- ----------------------------------------------------------------- -/

/-- One message object as written by `append_message`
(`message_queue.py` lines 40-47): a JSON object with exactly these six
string fields. -/
structure Message where
  id : String
  timestamp : String
  sender : String
  target : String
  message : String
  source_path : String
deriving Repr, DecidableEq

/-- One line of `messages.jsonl`, classified by what the reader's loop
(`message_queue.py` lines 83-94) observes for it:
  * `blank`       — `line.strip()` is empty, the loop `continue`s;
  * `undecodable` — `json.loads` raises `JSONDecodeError`, caught and
                    skipped;
  * `nonObject`   — `json.loads` succeeds but yields a non-dict JSON
                    value (number, string, array, ...); the subsequent
                    `message_obj.get("target")` raises `AttributeError`,
                    which is *not* caught;
  * `obj m`       — a JSON object with the six fields written by
                    `append_message`. -/
inductive Line where
  | blank : Line
  | undecodable : Line
  | nonObject : Line
  | obj (m : Message) : Line
deriving Repr, DecidableEq

/-- `append_message` (`message_queue.py` lines 18-61): appends one
complete JSON line holding the message object to the file and returns
the message id.  The file is the list of its lines, oldest first. -/
def append_message (file : List Line) (m : Message) : List Line × String :=
  (file ++ [Line.obj m], m.id)

/-- A whole sequence of `append_message` calls, oldest first. -/
def appendAll (file : List Line) (ms : List Message) : List Line :=
  ms.foldl (fun f m => (append_message f m).1) file

/-- The reader's scan loop (`message_queue.py` lines 83-94) over the
lines of the file.  Blank and undecodable lines are skipped; an object
line is kept iff its `target` equals `session_name`; a non-object JSON
line raises `AttributeError` (only `JSONDecodeError` is caught), which
the embedding reports as `Except.error`. -/
def scanLines : List Line → String → Except String (List Message)
  | [], _ => .ok []
  | Line.blank :: rest, t => scanLines rest t
  | Line.undecodable :: rest, t => scanLines rest t
  | Line.nonObject :: _, _ => .error "AttributeError"
  | Line.obj m :: rest, t =>
      if m.target = t then
        (scanLines rest t).map (fun ms => m :: ms)
      else
        scanLines rest t

/-- `read_pending_messages` (`message_queue.py` lines 64-99).  The file
argument is `none` when `MESSAGES_FILE.exists()` is false. -/
def read_pending_messages (file : Option (List Line)) (session_name : String) :
    Except String (List Message) :=
  match file with
  | none => .ok []
  | some lines => scanLines lines session_name

/-- A line is benign junk when the reader skips it silently. -/
def benignJunk (l : Line) : Prop := l = Line.blank ∨ l = Line.undecodable

lemma scanLines_append (xs ys : List Line) (t : String) :
    scanLines (xs ++ ys) t =
      (scanLines xs t).bind (fun ms => (scanLines ys t).map (fun ms' => ms ++ ms')) := by
  induction xs with
  | nil =>
      simp only [List.nil_append, scanLines]
      cases scanLines ys t <;> rfl
  | cons l rest ih =>
      cases l with
      | blank => simpa [scanLines] using ih
      | undecodable => simpa [scanLines] using ih
      | nonObject => simp [scanLines, Except.bind]
      | obj m =>
          simp only [List.cons_append, scanLines]
          rw [List.append_eq, ih]
          by_cases hm : m.target = t
          · rw [if_pos hm, if_pos hm]
            cases scanLines rest t with
            | error e => rfl
            | ok ms => cases scanLines ys t <;> rfl
          · rw [if_neg hm, if_neg hm]

lemma scanLines_junk (junk : List Line) (t : String)
    (hj : ∀ l ∈ junk, benignJunk l) :
    scanLines junk t = .ok [] := by
  induction junk with
  | nil => rfl
  | cons l rest ih =>
      have hl := hj l (by simp)
      have hrest : ∀ l ∈ rest, benignJunk l := fun l hm => hj l (by simp [hm])
      rcases hl with h | h <;> subst h <;> simpa [scanLines] using ih hrest

lemma scanLines_foldl (ms : List Message) (t : String) :
    ∀ (file : List Line) (xs : List Message),
      scanLines file t = .ok xs →
      scanLines (ms.foldl (fun f m => (append_message f m).1) file) t =
        .ok (xs ++ ms.filter (fun m => m.target = t)) := by
  induction ms with
  | nil =>
      intro file xs h
      simpa using h
  | cons m rest ih =>
      intro file xs h
      have step : scanLines (file ++ [Line.obj m]) t =
          .ok (xs ++ if m.target = t then [m] else []) := by
        rw [scanLines_append, h]
        by_cases hm : m.target = t
        · rw [if_pos hm]
          simp [scanLines, hm, Except.bind, Except.map]
        · rw [if_neg hm]
          simp [scanLines, hm, Except.bind, Except.map]
      have := ih (file ++ [Line.obj m]) _ step
      simp only [List.foldl_cons, append_message] at this ⊢
      rw [this]
      by_cases hm : m.target = t <;> simp [hm, List.filter_cons]

/-- C2: appended entries with target `t`, preceded by any benign junk
(blank or JSON-undecodable lines), are returned exactly and in
insertion order. -/
theorem read_pending_roundtrip (junk : List Line) (ms : List Message) (t : String)
    (hj : ∀ l ∈ junk, benignJunk l) :
    read_pending_messages (some (appendAll junk ms)) t =
      .ok (ms.filter (fun m => m.target = t)) := by
  have h0 := scanLines_junk junk t hj
  have := scanLines_foldl ms t junk [] h0
  simpa [read_pending_messages, appendAll] using this

/-- Witness for `read_pending_roundtrip` at a concrete queue. -/
theorem read_pending_roundtrip_witness :
    (∀ l ∈ [Line.blank, Line.undecodable], benignJunk l) ∧
      read_pending_messages
        (some (appendAll [Line.blank, Line.undecodable]
          [⟨"1", "t1", "alice", "dev", "hi", "/p"⟩,
           ⟨"2", "t2", "bob", "ops", "yo", "/p"⟩,
           ⟨"3", "t3", "carol", "dev", "sup", "/p"⟩])) "dev" =
        .ok [⟨"1", "t1", "alice", "dev", "hi", "/p"⟩,
             ⟨"3", "t3", "carol", "dev", "sup", "/p"⟩] := by
  refine ⟨?_, ?_⟩
  · intro l hl
    simp only [List.mem_cons, List.not_mem_nil, or_false] at hl
    rcases hl with h | h <;> subst h
    · exact Or.inl rfl
    · exact Or.inr rfl
  · exact read_pending_roundtrip [Line.blank, Line.undecodable] _ "dev"
      (by intro l hl
          simp only [List.mem_cons, List.not_mem_nil, or_false] at hl
          rcases hl with h | h <;> subst h
          · exact Or.inl rfl
          · exact Or.inr rfl)

/-- What the spec's words promise the reader extracts: every
well-formed (object) line whose target matches, in file order. -/
def wellFormedMatches (lines : List Line) (t : String) : List Message :=
  lines.filterMap (fun l => match l with
    | Line.obj m => if m.target = t then some m else none
    | _ => none)

/-- C10 counterexample: a partially corrupt queue file whose first
line is valid JSON but not an object (for instance the line `42`)
makes `read_pending_messages` raise `AttributeError` — `.get` is
called on a non-dict and only `JSONDecodeError` is caught — instead
of skipping it and returning the well-formed matching entry that
follows. -/
theorem read_pending_raises_on_nonobject_line :
    read_pending_messages
      (some [Line.nonObject, Line.obj ⟨"1", "t1", "alice", "dev", "hi", "/p"⟩])
      "dev" = .error "AttributeError" := rfl

/-- C10 amended: `read_pending_messages` returns `[]` when the file is
missing, and on any file none of whose lines decodes to a non-object
JSON value it never raises: blank and undecodable lines are skipped and
exactly the well-formed matching entries are returned in order. -/
theorem read_pending_total_without_nonobject :
    (∀ t, read_pending_messages none t = .ok []) ∧
      ∀ (lines : List Line) (t : String),
        (∀ l ∈ lines, l ≠ Line.nonObject) →
        read_pending_messages (some lines) t = .ok (wellFormedMatches lines t) := by
  refine ⟨fun _ => rfl, ?_⟩
  intro lines t h
  induction lines with
  | nil => rfl
  | cons l rest ih =>
      have hrest : ∀ l ∈ rest, l ≠ Line.nonObject := fun x hx => h x (by simp [hx])
      have ihr := ih hrest
      cases l with
      | blank =>
          simpa [read_pending_messages, scanLines, wellFormedMatches] using ihr
      | undecodable =>
          simpa [read_pending_messages, scanLines, wellFormedMatches] using ihr
      | nonObject => exact absurd rfl (h Line.nonObject (by simp))
      | obj m =>
          simp only [read_pending_messages] at ihr ⊢
          by_cases hm : m.target = t
          · simp [scanLines, wellFormedMatches, hm, ihr, Except.map]
          · simp [scanLines, wellFormedMatches, hm, ihr]

/-- Witness for `read_pending_total_without_nonobject` at a concrete
file. -/
theorem read_pending_total_witness :
    read_pending_messages
      (some [Line.blank, Line.obj ⟨"1", "t1", "alice", "dev", "hi", "/p"⟩,
             Line.undecodable]) "dev" =
      .ok (wellFormedMatches
        [Line.blank, Line.obj ⟨"1", "t1", "alice", "dev", "hi", "/p"⟩,
         Line.undecodable] "dev") :=
  read_pending_total_without_nonobject.2 _ "dev"
    (by intro l hl
        simp only [List.mem_cons, List.not_mem_nil, or_false] at hl
        rcases hl with h | h | h <;> subst h <;> intro hc <;> cases hc)

/- ----------------------------------------------------------------- -/
/- Monitor service: orchestra/backend/monitor.py + lib/monitor.py     -/
/- ----------------------------------------------------------------- -/

/-- `asyncio.Queue(maxsize=1000)` from `BaseMonitor.queue`
(`orchestra/lib/monitor.py` line 42). -/
def QUEUE_MAXSIZE : Nat := 1000

/-- The observable state of one `BaseMonitor`:
  * `clientStarted` — `self.client is not None`;
  * `taskRunning`   — `self.task is not None`;
  * `queueLen`      — `self.queue.qsize()`. -/
structure MonitorSt where
  clientStarted : Bool
  taskRunning : Bool
  queueLen : Nat
deriving Repr, DecidableEq

/-- `BaseMonitor.start` (`orchestra/lib/monitor.py` lines 70-86):
returns immediately when a client already exists; otherwise enters the
SDK client and spawns the `_run` task. -/
def monitorStart (m : MonitorSt) : MonitorSt :=
  if m.clientStarted then m
  else { m with clientStarted := true, taskRunning := true }

/-- `BaseMonitor.stop` (`orchestra/lib/monitor.py` lines 88-99):
cancels the task and closes the client. -/
def monitorStop (m : MonitorSt) : MonitorSt :=
  { m with taskRunning := false, clientStarted := false }

/-- `queue.put_nowait` on the bounded queue (`BaseMonitor.enqueue`,
lines 101-103): raises `asyncio.QueueFull` (here `none`) when
`qsize >= maxsize`, otherwise appends. -/
def put_nowait (m : MonitorSt) : Option MonitorSt :=
  if m.queueLen < QUEUE_MAXSIZE then some { m with queueLen := m.queueLen + 1 }
  else none

/-- The `_monitors` registry (`backend/monitor.py` line 47), a dict
keyed by `session_id`, plus the server `_mode`. -/
structure ServerState where
  monitors : List (String × MonitorSt)
  mode : String
deriving Repr, DecidableEq

/-- Dict read: first entry with the key. -/
def dictGet (l : List (String × MonitorSt)) (k : String) : Option MonitorSt :=
  match l with
  | [] => none
  | (k', v) :: rest => if k' = k then some v else dictGet rest k

/-- Dict write: replace in place, or append when absent
(`_monitors[session_id] = monitor`). -/
def dictSet (l : List (String × MonitorSt)) (k : String) (v : MonitorSt) :
    List (String × MonitorSt) :=
  match l with
  | [] => [(k, v)]
  | (k', v') :: rest => if k' = k then (k, v) :: rest else (k', v') :: dictSet rest k v

def lookupMonitor (st : ServerState) (sid : String) : Option MonitorSt :=
  dictGet st.monitors sid

/-- `get_or_create_monitor` (`backend/monitor.py` lines 64-81).
`sessionFound` is the outcome of `get_session`'s scan of the store in
session mode; when it is false `get_session` raises HTTP 404, which the
embedding reports as `.error`.  A fresh monitor of either mode is
started (`monitorStart`) and registered. -/
def get_or_create_monitor (st : ServerState) (sid : String) (sessionFound : Bool) :
    Except String (MonitorSt × ServerState) :=
  match dictGet st.monitors sid with
  | some m => .ok (m, st)
  | none =>
      if st.mode = "session" && !sessionFound then
        .error ("Session '" ++ sid ++ "' not found")
      else
        let m := monitorStart ⟨false, false, 0⟩
        .ok (m, { st with monitors := dictSet st.monitors sid m })

/-- The parsed request body of `POST /hook/{session_id}`:
either `json.loads` failed, or it produced an object whose
`source_path` / `event` fields are as given (`None` when absent). -/
inductive HookBody where
  | invalidJson : HookBody
  | json (source_path : Option String) (event : Option String) : HookBody
deriving Repr, DecidableEq

/-- The HTTP responses the `hook` handler can produce. -/
inductive HookResponse where
  | ok (session_id : String) (mode : String)
  | badRequest (detail : String)
  | notFound (detail : String)
  | serviceUnavailable (detail : String)
deriving Repr, DecidableEq

/-- The `hook` handler (`backend/monitor.py` lines 91-124): 400 on
undecodable body, empty `session_id` or missing/empty `source_path`;
404 when session mode cannot resolve the session; 503 when
`put_nowait` raises `QueueFull`; otherwise the event is enqueued and
`{"status": "ok", "session_id": sid, "mode": mode}` is returned. -/
def hook (st : ServerState) (sid : String) (body : HookBody) (sessionFound : Bool) :
    HookResponse × ServerState :=
  match body with
  | .invalidJson => (.badRequest "invalid JSON", st)
  | .json sp _ =>
      if sid = "" then (.badRequest "session_id is required", st)
      else if sp.getD "" = "" then (.badRequest "source_path is required", st)
      else
        match get_or_create_monitor st sid sessionFound with
        | .error d => (.notFound d, st)
        | .ok (m, st') =>
            match put_nowait m with
            | none => (.serviceUnavailable "queue full", st')
            | some m' =>
                (.ok sid st.mode, { st' with monitors := dictSet st'.monitors sid m' })

/-- `_shutdown` (`backend/monitor.py` lines 84-88): stops every
registered monitor, popping each from the registry.  The second
component is the list of monitors as they were left by `stop`. -/
def serverShutdown (st : ServerState) : ServerState × List (String × MonitorSt) :=
  ({ st with monitors := [] },
   st.monitors.map (fun p => (p.1, monitorStop p.2)))

lemma dictGet_dictSet_self (l : List (String × MonitorSt)) (k : String) (v : MonitorSt) :
    dictGet (dictSet l k v) k = some v := by
  induction l with
  | nil => simp [dictGet, dictSet]
  | cons p rest ih =>
      obtain ⟨k', v'⟩ := p
      by_cases h : k' = k
      · simp [dictGet, dictSet, h]
      · simp [dictGet, dictSet, h, ih]

lemma dictGet_dictSet_other (l : List (String × MonitorSt)) (k k₂ : String)
    (v : MonitorSt) (h : k₂ ≠ k) :
    dictGet (dictSet l k v) k₂ = dictGet l k₂ := by
  induction l with
  | nil =>
      have hne : ¬ k = k₂ := fun hc => h hc.symm
      simp [dictGet, dictSet, hne]
  | cons p rest ih =>
      obtain ⟨k', v'⟩ := p
      by_cases hk : k' = k
      · subst hk
        have hne : ¬ k' = k₂ := fun hc => h hc.symm
        simp [dictGet, dictSet, hne]
      · by_cases hk2 : k' = k₂
        · subst hk2
          simp [dictGet, dictSet, hk]
        · simp [dictGet, dictSet, hk, hk2, ih]

lemma dictSet_cons_eq (k' : String) (v' : MonitorSt) (rest : List (String × MonitorSt))
    (k : String) (v : MonitorSt) (hk : k' = k) :
    dictSet ((k', v') :: rest) k v = (k, v) :: rest := by
  simp only [dictSet]
  rw [if_pos hk]

lemma dictSet_cons_ne (k' : String) (v' : MonitorSt) (rest : List (String × MonitorSt))
    (k : String) (v : MonitorSt) (hk : ¬ k' = k) :
    dictSet ((k', v') :: rest) k v = (k', v') :: dictSet rest k v := by
  simp only [dictSet]
  rw [if_neg hk]

lemma dictSet_keys_subset (l : List (String × MonitorSt)) (k : String) (v : MonitorSt) :
    ∀ x ∈ (dictSet l k v).map Prod.fst, x = k ∨ x ∈ l.map Prod.fst := by
  induction l with
  | nil =>
      intro x hx
      simp [dictSet] at hx
      exact Or.inl hx
  | cons p rest ih =>
      obtain ⟨k', v'⟩ := p
      intro x hx
      by_cases hk : k' = k
      · rw [dictSet_cons_eq k' v' rest k v hk, List.map_cons] at hx
        rcases List.mem_cons.mp hx with hx | hx
        · exact Or.inl hx
        · exact Or.inr (List.mem_cons.mpr (Or.inr hx))
      · rw [dictSet_cons_ne k' v' rest k v hk, List.map_cons] at hx
        rcases List.mem_cons.mp hx with hx | hx
        · exact Or.inr (List.mem_cons.mpr (Or.inl hx))
        · rcases ih x hx with h1 | h1
          · exact Or.inl h1
          · exact Or.inr (List.mem_cons.mpr (Or.inr h1))

lemma dictSet_keys_nodup (l : List (String × MonitorSt)) (k : String) (v : MonitorSt)
    (h : (l.map Prod.fst).Nodup) :
    ((dictSet l k v).map Prod.fst).Nodup := by
  induction l with
  | nil => simp [dictSet]
  | cons p rest ih =>
      obtain ⟨k', v'⟩ := p
      simp only [List.map_cons, List.nodup_cons] at h
      by_cases hk : k' = k
      · rw [dictSet_cons_eq k' v' rest k v hk, List.map_cons, List.nodup_cons]
        exact ⟨hk ▸ h.1, h.2⟩
      · have hrest := ih h.2
        have hmem : k' ∉ (dictSet rest k v).map Prod.fst := by
          intro hmem
          rcases dictSet_keys_subset rest k v k' hmem with h1 | h1
          · exact hk h1
          · exact h.1 h1
        rw [dictSet_cons_ne k' v' rest k v hk, List.map_cons, List.nodup_cons]
        exact ⟨hmem, hrest⟩

lemma hook_no_source_path (st : ServerState) (sid : String) (e : Option String)
    (sf : Bool) (hsid : sid ≠ "") :
    hook st sid (HookBody.json none e) sf =
      (.badRequest "source_path is required", st) := by
  simp only [hook]
  rw [if_neg hsid]
  rfl

lemma hook_queue_full (st : ServerState) (sid sp : String) (e : Option String)
    (sf : Bool) (m : MonitorSt) (hsid : sid ≠ "") (hsp : sp ≠ "")
    (hm : dictGet st.monitors sid = some m) (hfull : QUEUE_MAXSIZE ≤ m.queueLen) :
    hook st sid (HookBody.json (some sp) e) sf =
      (.serviceUnavailable "queue full", st) := by
  simp only [hook, Option.getD_some]
  rw [if_neg hsid, if_neg hsp]
  simp only [get_or_create_monitor, hm, put_nowait]
  rw [if_neg (not_lt.mpr hfull)]

lemma hook_enqueue_existing (st : ServerState) (sid sp : String) (e : Option String)
    (sf : Bool) (m : MonitorSt) (hsid : sid ≠ "") (hsp : sp ≠ "")
    (hm : dictGet st.monitors sid = some m) (hlt : m.queueLen < QUEUE_MAXSIZE) :
    hook st sid (HookBody.json (some sp) e) sf =
      (.ok sid st.mode,
       { st with monitors :=
          dictSet st.monitors sid { m with queueLen := m.queueLen + 1 } }) := by
  simp only [hook, Option.getD_some]
  rw [if_neg hsid, if_neg hsp]
  simp only [get_or_create_monitor, hm, put_nowait]
  rw [if_pos hlt]

lemma hook_creates_monitor (st : ServerState) (sid sp : String) (e : Option String)
    (sf : Bool) (hsid : sid ≠ "") (hsp : sp ≠ "")
    (hnone : dictGet st.monitors sid = none)
    (hsess : st.mode = "session" → sf = true) :
    hook st sid (HookBody.json (some sp) e) sf =
      (.ok sid st.mode,
       { st with monitors :=
          dictSet (dictSet st.monitors sid ⟨true, true, 0⟩) sid ⟨true, true, 1⟩ }) := by
  have hcond : (decide (st.mode = "session") && !sf) = false := by
    by_cases hm2 : st.mode = "session"
    · simp [hm2, hsess hm2]
    · simp [hm2]
  simp only [hook, Option.getD_some]
  rw [if_neg hsid, if_neg hsp]
  simp only [get_or_create_monitor, hnone]
  rw [hcond]
  simp [monitorStart, put_nowait, QUEUE_MAXSIZE]

/-- C3: the `POST /hook/{session_id}` contract.  A body without
`source_path` gets 400; when the target monitor's bounded queue
(capacity `QUEUE_MAXSIZE = 1000`) is full, `put_nowait` raises and the
handler answers 503 without mutating anything; otherwise the event is
enqueued on that monitor and the handler answers
`{"status": "ok", "session_id": sid, "mode": mode}`. -/
theorem hook_endpoint_contract :
    (∀ (st : ServerState) (sid : String) (e : Option String) (sf : Bool),
        sid ≠ "" →
        hook st sid (HookBody.json none e) sf =
          (.badRequest "source_path is required", st)) ∧
    (∀ (st : ServerState) (sid sp : String) (e : Option String) (sf : Bool) (m : MonitorSt),
        sid ≠ "" → sp ≠ "" → dictGet st.monitors sid = some m →
        QUEUE_MAXSIZE ≤ m.queueLen →
        hook st sid (HookBody.json (some sp) e) sf =
          (.serviceUnavailable "queue full", st)) ∧
    (∀ (st : ServerState) (sid sp : String) (e : Option String) (sf : Bool) (m : MonitorSt),
        sid ≠ "" → sp ≠ "" → dictGet st.monitors sid = some m →
        m.queueLen < QUEUE_MAXSIZE →
        hook st sid (HookBody.json (some sp) e) sf =
          (.ok sid st.mode,
           { st with monitors :=
              dictSet st.monitors sid { m with queueLen := m.queueLen + 1 } })) :=
  ⟨hook_no_source_path, hook_queue_full, hook_enqueue_existing⟩

/-- Witness for `hook_endpoint_contract` at concrete server states. -/
theorem hook_endpoint_contract_witness :
    hook ⟨[("s", ⟨true, true, 0⟩)], "session"⟩ "s" (HookBody.json none none) true =
      (.badRequest "source_path is required", ⟨[("s", ⟨true, true, 0⟩)], "session"⟩) ∧
    hook ⟨[("s", ⟨true, true, 1000⟩)], "session"⟩ "s" (HookBody.json (some "/p") none) true =
      (.serviceUnavailable "queue full", ⟨[("s", ⟨true, true, 1000⟩)], "session"⟩) ∧
    hook ⟨[("s", ⟨true, true, 3⟩)], "session"⟩ "s" (HookBody.json (some "/p") none) true =
      (.ok "s" "session", ⟨[("s", ⟨true, true, 4⟩)], "session"⟩) := by
  refine ⟨?_, ?_, ?_⟩
  · exact hook_endpoint_contract.1 _ "s" none true (by decide)
  · exact hook_endpoint_contract.2.1 ⟨[("s", ⟨true, true, 1000⟩)], "session"⟩ "s" "/p"
      none true ⟨true, true, 1000⟩ (by decide) (by decide) (by simp [dictGet]) (by decide)
  · have := hook_endpoint_contract.2.2 ⟨[("s", ⟨true, true, 3⟩)], "session"⟩ "s" "/p"
      none true ⟨true, true, 3⟩ (by decide) (by decide) (by simp [dictGet]) (by decide)
    simpa [dictSet] using this

lemma hook_monitors_shape (st : ServerState) (sid : String) (body : HookBody) (sf : Bool) :
    (hook st sid body sf).2.monitors = st.monitors ∨
    (∃ m0, (hook st sid body sf).2.monitors = dictSet st.monitors sid m0) ∨
    (∃ m0 m1, (hook st sid body sf).2.monitors =
      dictSet (dictSet st.monitors sid m0) sid m1) := by
  cases body with
  | invalidJson => exact Or.inl rfl
  | json sp e =>
      by_cases hsid : sid = ""
      · left
        simp [hook, hsid]
      · by_cases hsp : sp.getD "" = ""
        · left
          simp only [hook]
          rw [if_neg hsid, if_pos hsp]
        · cases hdg : dictGet st.monitors sid with
          | some m =>
              have hg : get_or_create_monitor st sid sf = .ok (m, st) := by
                simp [get_or_create_monitor, hdg]
              by_cases hq : m.queueLen < QUEUE_MAXSIZE
              · right; left
                refine ⟨{ m with queueLen := m.queueLen + 1 }, ?_⟩
                simp only [hook]
                rw [if_neg hsid, if_neg hsp]
                simp [hg, put_nowait, hq]
              · left
                simp only [hook]
                rw [if_neg hsid, if_neg hsp]
                simp [hg, put_nowait, hq]
          | none =>
              by_cases hcond : (decide (st.mode = "session") && !sf) = true
              · left
                simp only [hook]
                rw [if_neg hsid, if_neg hsp]
                simp only [get_or_create_monitor, hdg]
                rw [if_pos hcond]
              · right; right
                refine ⟨monitorStart ⟨false, false, 0⟩, ⟨true, true, 1⟩, ?_⟩
                simp only [hook]
                rw [if_neg hsid, if_neg hsp]
                simp only [get_or_create_monitor, hdg]
                rw [if_neg hcond]
                simp [monitorStart, put_nowait, QUEUE_MAXSIZE]

/-- C8: the server keeps at most one monitor per `session_id`.
`BaseMonitor.start` is a no-op when a client already exists; the first
accepted hook for an unknown `session_id` registers exactly one
started monitor (leaving every other key untouched); a later hook for
that `session_id` enqueues on the same registry entry (only its queue
length changes); the registry's keys stay duplicate-free across any
hook; and `_shutdown` empties the registry after stopping each
monitor. -/
theorem monitor_registry_single_instance :
    (∀ m : MonitorSt, m.clientStarted = true → monitorStart m = m) ∧
    (∀ (st : ServerState) (sid sp : String) (e : Option String) (sf : Bool),
        sid ≠ "" → sp ≠ "" → dictGet st.monitors sid = none →
        (st.mode = "session" → sf = true) →
        dictGet ((hook st sid (HookBody.json (some sp) e) sf).2).monitors sid =
            some ⟨true, true, 1⟩ ∧
          ∀ k, k ≠ sid →
            dictGet ((hook st sid (HookBody.json (some sp) e) sf).2).monitors k =
              dictGet st.monitors k) ∧
    (∀ (st : ServerState) (sid sp : String) (e : Option String) (sf : Bool) (m : MonitorSt),
        sid ≠ "" → sp ≠ "" → dictGet st.monitors sid = some m →
        m.queueLen < QUEUE_MAXSIZE →
        dictGet ((hook st sid (HookBody.json (some sp) e) sf).2).monitors sid =
            some { m with queueLen := m.queueLen + 1 } ∧
          ∀ k, k ≠ sid →
            dictGet ((hook st sid (HookBody.json (some sp) e) sf).2).monitors k =
              dictGet st.monitors k) ∧
    (∀ (st : ServerState) (sid : String) (body : HookBody) (sf : Bool),
        (st.monitors.map Prod.fst).Nodup →
        (((hook st sid body sf).2).monitors.map Prod.fst).Nodup) ∧
    (∀ st : ServerState,
        (serverShutdown st).1.monitors = [] ∧
        ∀ p ∈ (serverShutdown st).2,
          p.2.clientStarted = false ∧ p.2.taskRunning = false) := by
  refine ⟨?_, ?_, ?_, ?_, ?_⟩
  · intro m h
    simp [monitorStart, h]
  · intro st sid sp e sf hsid hsp hnone hsess
    rw [hook_creates_monitor st sid sp e sf hsid hsp hnone hsess]
    constructor
    · exact dictGet_dictSet_self _ sid _
    · intro k hk
      rw [dictGet_dictSet_other _ sid k _ hk, dictGet_dictSet_other _ sid k _ hk]
  · intro st sid sp e sf m hsid hsp hm hlt
    rw [hook_enqueue_existing st sid sp e sf m hsid hsp hm hlt]
    constructor
    · exact dictGet_dictSet_self _ sid _
    · intro k hk
      exact dictGet_dictSet_other _ sid k _ hk
  · intro st sid body sf hnd
    rcases hook_monitors_shape st sid body sf with h | ⟨m0, h⟩ | ⟨m0, m1, h⟩
    · rw [h]; exact hnd
    · rw [h]; exact dictSet_keys_nodup _ _ _ hnd
    · rw [h]; exact dictSet_keys_nodup _ _ _ (dictSet_keys_nodup _ _ _ hnd)
  · intro st
    refine ⟨rfl, ?_⟩
    intro p hp
    simp only [serverShutdown, List.mem_map] at hp
    obtain ⟨q, _, rfl⟩ := hp
    exact ⟨rfl, rfl⟩

/-- Witness for `monitor_registry_single_instance` at a concrete
server: first hook for "s" creates a started monitor with one queued
event, a second hook enqueues on the same entry. -/
theorem monitor_registry_witness :
    monitorStart ⟨true, true, 5⟩ = ⟨true, true, 5⟩ ∧
    dictGet ((hook ⟨[], "independent"⟩ "s" (HookBody.json (some "/p") none)
        false).2).monitors "s" = some ⟨true, true, 1⟩ ∧
    dictGet ((hook ⟨[("s", ⟨true, true, 1⟩)], "independent"⟩ "s"
        (HookBody.json (some "/p") none) false).2).monitors "s" =
      some ⟨true, true, 2⟩ := by
  refine ⟨?_, ?_, ?_⟩
  · exact monitor_registry_single_instance.1 ⟨true, true, 5⟩ rfl
  · exact (monitor_registry_single_instance.2.1 ⟨[], "independent"⟩ "s" "/p" none false
      (by decide) (by decide) rfl
      (fun h => absurd h (by decide))).1
  · exact (monitor_registry_single_instance.2.2.1 ⟨[("s", ⟨true, true, 1⟩)], "independent"⟩
      "s" "/p" none false ⟨true, true, 1⟩ (by decide) (by decide) (by simp [dictGet])
      (by decide)).1

/- ----------------------------------------------------------------- -/
/- Monitor batching loop: BaseMonitor._run                            -/
/- ----------------------------------------------------------------- -/

/-- Batch processing configuration (`orchestra/lib/monitor.py`
lines 18-21). -/
def MAX_BATCH_SIZE : Nat := 10

def BATCH_WAIT_TIME : Nat := 10

def MAX_BATCH_WAIT : Nat := 20

/-- A hook event as held in the monitor's queue. -/
abbrev HookEvent := String

/-- Observable state of the `_run` consumer coroutine and its queue:
`pending` are queued events (oldest first), `unfinished` is the
queue's unfinished-task counter (incremented by `put_nowait`,
decremented by `task_done`), `alive` says whether the `while True`
loop is still running, `logged` collects the batches whose agent
replies the loop logged. -/
structure LoopState where
  pending : List HookEvent
  unfinished : Nat
  alive : Bool
  logged : List (List HookEvent)
deriving Repr, DecidableEq

/-- One iteration of the `while True` body of `BaseMonitor._run`
(`orchestra/lib/monitor.py` lines 116-151).  `k` is the number of
events the collection phase took this round (the blocking first `get`
plus the timed loop; timing decides `k`, so it is a parameter here),
`agentRaises` says whether `client.query` / `receive_response` raised
while the batch was processed.  The `try` block has only a `finally`
and no `except`: `task_done` still runs once per batch event, but the
exception then propagates out of `while True`, ending the coroutine
without logging anything on that path. -/
def runBatchIteration (st : LoopState) (k : Nat) (agentRaises : Bool) : LoopState :=
  if !st.alive then st
  else if st.pending.isEmpty then st
  else
    let batch := st.pending.take k
    let st' : LoopState :=
      { st with pending := st.pending.drop k,
                unfinished := st.unfinished - batch.length }
    if agentRaises then { st' with alive := false }
    else { st' with logged := st.logged ++ [batch] }

/-- C4 counterexample: with two pending events and an agent exception
during batch processing, `task_done` does run twice (`unfinished`
2 → 0) but the exception is not logged (`logged` stays empty) and the
consumer loop terminates (`alive` becomes false) instead of continuing
with subsequent batches. -/
theorem monitor_loop_dies_on_exception :
    runBatchIteration ⟨["PostToolUse", "Stop"], 2, true, []⟩ 2 true =
      ⟨[], 0, false, []⟩ := rfl

/-- C4 amended: an iteration of the batch loop always calls
`task_done` once per batch event; on success the loop stays alive and
logs the batch's reply; on an agent exception the loop does not catch
or log it — the coroutine terminates. -/
theorem monitor_loop_batch_semantics (st : LoopState) (k : Nat) (agentRaises : Bool)
    (halive : st.alive = true) (hne : st.pending ≠ []) :
    (runBatchIteration st k agentRaises).pending = st.pending.drop k ∧
    (runBatchIteration st k agentRaises).unfinished =
      st.unfinished - (st.pending.take k).length ∧
    (agentRaises = true →
      (runBatchIteration st k agentRaises).alive = false ∧
      (runBatchIteration st k agentRaises).logged = st.logged) ∧
    (agentRaises = false →
      (runBatchIteration st k agentRaises).alive = true ∧
      (runBatchIteration st k agentRaises).logged =
        st.logged ++ [st.pending.take k]) := by
  have hemp : st.pending.isEmpty = false := by
    cases hp : st.pending with
    | nil => exact absurd hp hne
    | cons a l => rfl
  cases agentRaises with
  | true =>
      simp [runBatchIteration, halive, hemp]
  | false =>
      simp [runBatchIteration, halive, hemp]

/-- Witness for `monitor_loop_batch_semantics` at a concrete state. -/
theorem monitor_loop_batch_semantics_witness :
    (runBatchIteration ⟨["UserPromptSubmit"], 1, true, []⟩ 1 false).alive = true ∧
    (runBatchIteration ⟨["UserPromptSubmit"], 1, true, []⟩ 1 false).unfinished = 0 := by
  have h := monitor_loop_batch_semantics ⟨["UserPromptSubmit"], 1, true, []⟩ 1 false
    rfl (by decide)
  exact ⟨(h.2.2.2 rfl).1, h.2.1⟩

/- ----------------------------------------------------------------- -/
/- TmuxProtocol: cerb_code/lib/tmux_agent.py                          -/
/- ----------------------------------------------------------------- -/

/-- The sessions alive on the dedicated `orchestra` tmux socket. -/
structure TmuxServerState where
  sessions : List String
deriving Repr, DecidableEq

/-- `tmux -L orchestra new-session -d -s name -c dir cmd` (issued by
`TmuxProtocol.start`, `tmux_agent.py` lines 368-382): per the tmux CLI
contract (no `-A` flag is passed), the command creates the detached
session and exits 0 when the name is free, and exits nonzero with
"duplicate session" when a session of that name already exists. -/
def tmuxNewSession (srv : TmuxServerState) (name : String) : Nat × TmuxServerState :=
  if name ∈ srv.sessions then (1, srv)
  else (0, ⟨srv.sessions ++ [name]⟩)

/-- `_get_tmux_session_name` (`tmux_agent.py` lines 62-75):
`{basename(source_path)}-{session_id}`. -/
def getTmuxSessionName (sourceBasename session_id : String) : String :=
  sourceBasename ++ "-" ++ session_id

/-- The inputs `TmuxProtocol.start` consults besides the tmux server:
whether `session.work_path` is set, whether the protocol uses Docker,
and the result of `start_docker_container` when it does. -/
structure StartEnv where
  workPathSet : Bool
  useDocker : Bool
  dockerStartOk : Bool
deriving Repr, DecidableEq

/-- `TmuxProtocol.start` (`tmux_agent.py` lines 330-395): fails when
`work_path` is unset or the container fails to start; otherwise it
runs `tmux new-session -d -s {tmux_session_name}` — with no prior
`has-session` check — and returns `result.returncode == 0`.  (The
post-start Enter keystroke after a 2 s sleep does not affect the
return value.) -/
def TmuxProtocol.start (env : StartEnv) (srv : TmuxServerState) (tmuxName : String) :
    Bool × TmuxServerState :=
  if !env.workPathSet then (false, srv)
  else if env.useDocker && !env.dockerStartOk then (false, srv)
  else
    let r := tmuxNewSession srv tmuxName
    (r.1 == 0, r.2)

/-- C5 counterexample: a local session whose detached tmux session
already exists.  `start` issues `new-session` unconditionally, the
command fails with "duplicate session", and `start` returns false —
not true as the claim states. -/
theorem start_returns_false_when_already_running :
    TmuxProtocol.start ⟨true, false, true⟩ ⟨["proj-proj-exec"]⟩ "proj-proj-exec" =
      (false, ⟨["proj-proj-exec"]⟩) := rfl

/-- C5 amended: `start` returns true iff `work_path` is set, the
container (when used) starts, and `tmux new-session` succeeds; when
the named session already exists, `new-session` fails with a
duplicate-session error, so re-starting while present returns false. -/
theorem start_succeeds_iff_session_fresh (env : StartEnv) (srv : TmuxServerState)
    (name : String) (hw : env.workPathSet = true)
    (hd : env.useDocker = true → env.dockerStartOk = true) :
    (name ∈ srv.sessions →
      TmuxProtocol.start env srv name = (false, srv)) ∧
    (name ∉ srv.sessions →
      TmuxProtocol.start env srv name = (true, ⟨srv.sessions ++ [name]⟩)) := by
  have hdock : (env.useDocker && !env.dockerStartOk) = false := by
    cases hu : env.useDocker with
    | false => rfl
    | true => simp [hd hu]
  constructor
  · intro hmem
    simp [TmuxProtocol.start, hw, hdock, tmuxNewSession, hmem]
  · intro hmem
    simp [TmuxProtocol.start, hw, hdock, tmuxNewSession, hmem]

/-- Witness for `start_succeeds_iff_session_fresh`: starting a fresh
session returns true and registers it; starting it again returns
false. -/
theorem start_succeeds_iff_session_fresh_witness :
    TmuxProtocol.start ⟨true, false, true⟩ ⟨[]⟩ "p-s" = (true, ⟨["p-s"]⟩) ∧
    TmuxProtocol.start ⟨true, false, true⟩ ⟨["p-s"]⟩ "p-s" = (false, ⟨["p-s"]⟩) := by
  constructor
  · exact (start_succeeds_iff_session_fresh ⟨true, false, true⟩ ⟨[]⟩ "p-s" rfl
      (fun h => by cases h)).2 (by simp)
  · exact (start_succeeds_iff_session_fresh ⟨true, false, true⟩ ⟨["p-s"]⟩ "p-s" rfl
      (fun h => by cases h)).1 (by simp)

/-- The containers known to the Docker daemon. -/
structure DockerState where
  containers : List String
deriving Repr, DecidableEq

/-- `TmuxProtocol.delete` (`tmux_agent.py` lines 558-581): Docker mode
runs `docker stop` + `docker rm` (via `_stop_container`), local mode
runs `tmux kill-session`; every subprocess result is discarded and the
function ends with `return True`. -/
def TmuxProtocol.delete (useDocker : Bool) (tmuxName containerName : String)
    (srv : TmuxServerState) (dock : DockerState) :
    Bool × TmuxServerState × DockerState :=
  if useDocker then
    (true, srv, ⟨dock.containers.erase containerName⟩)
  else
    (true, ⟨srv.sessions.erase tmuxName⟩, dock)

/-- C9: `delete` returns true for every session and every outcome of
the underlying cleanup — in particular also when the tmux session or
the container does not exist, i.e. when `kill-session` / `docker stop`
failed.  No cleanup failure is ever reported to the caller. -/
theorem delete_always_returns_true (useDocker : Bool) (tmuxName containerName : String)
    (srv : TmuxServerState) (dock : DockerState) :
    (TmuxProtocol.delete useDocker tmuxName containerName srv dock).1 = true := by
  cases useDocker <;> rfl

/-- What a path names on disk: nothing, a real directory, or a
symlink. -/
inductive FsEntry where
  | absent : FsEntry
  | dir : FsEntry
  | symlinkTo (target : String) : FsEntry
deriving Repr, DecidableEq

/-- The filesystem objects `toggle_pairing` touches:
  * `source`      — what sits at `source_path`;
  * `backup`      — what sits at `{source_path}.backup`;
  * `gitLink`     — the `.git` inside the source directory: `some t`
    when it is a symlink with target `t` (after stable relocation),
    `none` when it is a real directory.  It travels with the directory
    on rename;
  * `worktreeGit` — the content of the `work_path/.git` file. -/
structure PairFs where
  source : FsEntry
  backup : FsEntry
  gitLink : Option String
  worktreeGit : String
deriving Repr, DecidableEq

/-- Which of the filesystem primitives raise when invoked. -/
structure PairFaults where
  renameFails : Bool
  writeFails : Bool
  symlinkFails : Bool
deriving Repr, DecidableEq

/-- Outcome of `toggle_pairing`: a `(success, error_message)` return
with the resulting filesystem and `session.paired`, or an uncaught
exception propagating out of the method. -/
inductive PairResult where
  | ret (ok : Bool) (msg : String) (fs : PairFs) (paired : Bool) : PairResult
  | exn (fs : PairFs) (paired : Bool) : PairResult
deriving Repr, DecidableEq

/-- The `gitdir:` line written into `work_path/.git`. -/
def gitdirContent (resolvedGit session_id : String) : String :=
  "gitdir: " ++ resolvedGit ++ "/worktrees/" ++ session_id ++ "\n"

/-- `resolved_git` for the enable path: `backup/.git` resolved through
the symlink when the relocated `.git` is one. -/
def resolvedBackupGit (source_path : String) (gitLink : Option String) : String :=
  match gitLink with
  | some tgt => tgt
  | none => source_path ++ ".backup/.git"

/-- `resolved_git` for the disable path: `source/.git` resolved
likewise. -/
def resolvedSourceGit (source_path : String) (gitLink : Option String) : String :=
  match gitLink with
  | some tgt => tgt
  | none => source_path ++ "/.git"

/-- `TmuxProtocol.toggle_pairing` (`tmux_agent.py` lines 610-692).
Enabling: precondition checks, then (a) `source.rename(backup)` in a
`try` returning `(False, reason)` on failure; (b)
`worktree_git_file.write_text(...)` in a `try` whose handler renames
the backup back and returns `(False, reason)`; (c)
`source.symlink_to(worktree)` — *not* inside any `try`: a failure
there propagates as an exception (`exn`) with steps (a) and (b) left
in place.  Disabling: requires a backup and a symlink; the restore
rename is likewise unprotected. -/
def toggle_pairing (source_path work_path session_id : String) (paired : Bool)
    (fs : PairFs) (f : PairFaults) : PairResult :=
  if source_path = "" ∨ work_path = "" then
    .ret false "Session not properly initialized" fs paired
  else if source_path = work_path then
    .ret false "Pairing not available for designer sessions (no separate worktree)"
      fs paired
  else if !paired then
    if fs.backup ≠ FsEntry.absent then
      .ret false ("Backup directory already exists: " ++ source_path ++ ".backup")
        fs paired
    else if f.renameFails then
      .ret false "Failed to backup source directory" fs paired
    else
      let fs1 : PairFs := { fs with source := FsEntry.absent, backup := fs.source }
      if f.writeFails then
        .ret false "Failed to update worktree .git file"
          { fs1 with source := fs.source, backup := FsEntry.absent } paired
      else
        let fs2 : PairFs :=
          { fs1 with worktreeGit :=
              gitdirContent (resolvedBackupGit source_path fs.gitLink) session_id }
        if f.symlinkFails then
          .exn fs2 paired
        else
          .ret true "" { fs2 with source := FsEntry.symlinkTo work_path } true
  else
    if fs.backup = FsEntry.absent then
      .ret false ("Backup directory not found: " ++ source_path ++ ".backup") fs paired
    else
      match fs.source with
      | FsEntry.symlinkTo _ =>
          let fs1 : PairFs := { fs with source := FsEntry.absent }
          if f.renameFails then
            .exn fs1 paired
          else
            let fs2 : PairFs :=
              { fs1 with source := fs.backup, backup := FsEntry.absent }
            if f.writeFails then
              .ret false "Failed to update worktree .git file" fs2 paired
            else
              .ret true ""
                { fs2 with worktreeGit :=
                    gitdirContent (resolvedSourceGit source_path fs.gitLink) session_id }
                false
      | _ =>
          .ret false ("Expected symlink at " ++ source_path ++ ", found regular directory")
            fs paired

/-- C1 counterexample: enabling pairing on a well-formed executor
session where only the final `symlink_to` step fails.  The operation
neither returns `(false, reason)` nor rolls back: it propagates an
exception while the source directory stays renamed to the backup and
`work_path/.git` stays rewritten. -/
theorem toggle_pairing_symlink_failure_not_rolled_back :
    toggle_pairing "/p" "/w" "proj-exec" false
      ⟨FsEntry.dir, FsEntry.absent, none, "gitdir: /orig/.git/worktrees/proj-exec\n"⟩
      ⟨false, false, true⟩ =
      .exn ⟨FsEntry.absent, FsEntry.dir, none,
        gitdirContent "/p.backup/.git" "proj-exec"⟩ false := rfl

/-- C1 amended: enabling pairing performs rename → `.git` rewrite →
symlink in that order.  A rename failure returns `(false, reason)`
with nothing changed; a rewrite failure renames the backup back and
returns `(false, reason)` with the filesystem restored; but a symlink
failure propagates as an uncaught exception with the completed rename
and rewrite *not* rolled back (`paired` stays false).  On success the
swap is exactly: source backed up, `work_path/.git` pointing at
`{resolved backup git}/worktrees/{session_id}`, and `source_path`
symlinked to `work_path`. -/
theorem toggle_pairing_enable_semantics (sp wp sid : String) (fs : PairFs)
    (f : PairFaults) (hsp : sp ≠ "") (hwp : wp ≠ "") (hne : sp ≠ wp)
    (hb : fs.backup = FsEntry.absent) :
    (f.renameFails = true →
      toggle_pairing sp wp sid false fs f =
        .ret false "Failed to backup source directory" fs false) ∧
    (f.renameFails = false → f.writeFails = true →
      toggle_pairing sp wp sid false fs f =
        .ret false "Failed to update worktree .git file" fs false) ∧
    (f.renameFails = false → f.writeFails = false → f.symlinkFails = true →
      toggle_pairing sp wp sid false fs f =
        .exn { fs with
               source := FsEntry.absent,
               backup := fs.source,
               worktreeGit := gitdirContent (resolvedBackupGit sp fs.gitLink) sid }
          false) ∧
    (f.renameFails = false → f.writeFails = false → f.symlinkFails = false →
      toggle_pairing sp wp sid false fs f =
        .ret true ""
          { fs with
            source := FsEntry.symlinkTo wp,
            backup := fs.source,
            worktreeGit := gitdirContent (resolvedBackupGit sp fs.gitLink) sid }
          true) := by
  obtain ⟨s, b, gl, wg⟩ := fs
  obtain ⟨fr, fw, fy⟩ := f
  simp only at hb
  subst hb
  refine ⟨?_, ?_, ?_, ?_⟩
  · intro h1
    simp only at h1
    subst h1
    simp [toggle_pairing, hsp, hwp, hne]
  · intro h1 h2
    simp only at h1 h2
    subst h1; subst h2
    simp [toggle_pairing, hsp, hwp, hne]
  · intro h1 h2 h3
    simp only at h1 h2 h3
    subst h1; subst h2; subst h3
    simp [toggle_pairing, hsp, hwp, hne]
  · intro h1 h2 h3
    simp only at h1 h2 h3
    subst h1; subst h2; subst h3
    simp [toggle_pairing, hsp, hwp, hne]

/-- Witness for `toggle_pairing_enable_semantics`: a successful enable
and a rename failure at concrete inputs. -/
theorem toggle_pairing_enable_semantics_witness :
    toggle_pairing "/p" "/w" "proj-exec" false
      ⟨FsEntry.dir, FsEntry.absent, some "/stable/.git", "old"⟩ ⟨false, false, false⟩ =
      .ret true ""
        ⟨FsEntry.symlinkTo "/w", FsEntry.dir, some "/stable/.git",
         gitdirContent "/stable/.git" "proj-exec"⟩ true ∧
    toggle_pairing "/p" "/w" "proj-exec" false
      ⟨FsEntry.dir, FsEntry.absent, some "/stable/.git", "old"⟩ ⟨true, false, false⟩ =
      .ret false "Failed to backup source directory"
        ⟨FsEntry.dir, FsEntry.absent, some "/stable/.git", "old"⟩ false := by
  constructor
  · exact (toggle_pairing_enable_semantics "/p" "/w" "proj-exec"
      ⟨FsEntry.dir, FsEntry.absent, some "/stable/.git", "old"⟩ ⟨false, false, false⟩
      (by decide) (by decide) (by decide) rfl).2.2.2 rfl rfl rfl
  · exact (toggle_pairing_enable_semantics "/p" "/w" "proj-exec"
      ⟨FsEntry.dir, FsEntry.absent, some "/stable/.git", "old"⟩ ⟨true, false, false⟩
      (by decide) (by decide) (by decide) rfl).1 rfl

/- ----------------------------------------------------------------- -/
/- Hook forwarder: cerb_code/runners/hook_monitor.py                  -/
/- ----------------------------------------------------------------- -/

/-- The fields of the stdin hook payload that session-id detection may
consult: the `cwd`, and the optional explicit `git_branch` / `branch`
overrides. -/
structure HookStdinPayload where
  cwd : String
  git_branch : Option String
  branch : Option String
deriving Repr, DecidableEq

/-- `_detect_branch` (`hook_monitor.py` lines 23-40) *as the body is
written*: despite its docstring (payload field > `CLAUDE_BRANCH` env
override > `git rev-parse` > `"unknown"`), it only runs
`git rev-parse --abbrev-ref HEAD` in `payload["cwd"]` and returns that
result directly — `None` included when git fails.  `envBranch` is the
`CLAUDE_BRANCH` value and `gitResult` the outcome of `_run_git`
(`none` on failure or empty output); both the payload overrides and
`envBranch` are ignored by the body. -/
def detect_branch (payload : HookStdinPayload) (envBranch : Option String)
    (gitResult : Option String) : Option String :=
  gitResult

/-- The resolution order `_detect_branch`'s docstring and the spec
prescribe: explicit payload field, then env override, then git, then
`"unknown"`.  (Second definition for comparison with the code's
`detect_branch`.) -/
def detect_branch_documented (payload : HookStdinPayload) (envBranch : Option String)
    (gitResult : Option String) : String :=
  ((payload.git_branch.orElse fun _ => payload.branch).orElse fun _ =>
    (envBranch.orElse fun _ => gitResult)).getD "unknown"

/-- How one run of the forwarder's `main` (`hook_monitor.py` lines
43-78) ends: a normal return with an exit code (and whether the POST
reached the wire), or an uncaught exception crashing the process. -/
inductive ForwarderResult where
  | exit (code : Nat) (posted : Bool) : ForwarderResult
  | crash (msg : String) : ForwarderResult
deriving Repr, DecidableEq

/-- `main` (`hook_monitor.py` lines 43-78): invalid stdin JSON returns
1; then `session_id = _detect_branch(payload)` is passed to
`urllib.parse.quote` — when it is `None`, `quote` raises `TypeError`,
which nothing catches (`raise SystemExit(main())` never runs, the
interpreter exits 1); a `requests.post` failure is caught, logged and
`main` returns 0; otherwise 0. -/
def forwarder_main (stdinValidJson : Bool) (payload : HookStdinPayload)
    (envBranch gitResult : Option String) (postSucceeds : Bool) : ForwarderResult :=
  if !stdinValidJson then .exit 1 false
  else
    match detect_branch payload envBranch gitResult with
    | none => .crash "TypeError: quote() argument must be str, not NoneType"
    | some _ =>
        if postSucceeds then .exit 0 true
        else .exit 0 false

/-- C6: at the failing input — a payload carrying an explicit
`git_branch` field, `CLAUDE_BRANCH` set, but `cwd` not a git repo —
the code ignores both overrides, `_detect_branch` returns `None`, and
the forwarder crashes with a `TypeError` instead of posting to
`feat-x` as the function's own docstring (and the spec) prescribe;
even when git succeeds, its answer overrides the explicit payload
field.  The POST-failure half of the claim does hold: a failed POST
exits 0. -/
theorem forwarder_ignores_overrides_and_crashes :
    detect_branch ⟨"/tmp/no-repo", some "feat-x", none⟩ (some "env-br") none = none ∧
    forwarder_main true ⟨"/tmp/no-repo", some "feat-x", none⟩ (some "env-br") none true =
      .crash "TypeError: quote() argument must be str, not NoneType" ∧
    detect_branch_documented ⟨"/tmp/no-repo", some "feat-x", none⟩ (some "env-br") none =
      "feat-x" ∧
    detect_branch ⟨"/repo", some "feat-x", none⟩ none (some "main") = some "main" ∧
    forwarder_main true ⟨"/repo", none, none⟩ none (some "main") false = .exit 0 false :=
  ⟨rfl, rfl, rfl, rfl, rfl⟩

/- ----------------------------------------------------------------- -/
/- Stable git relocation: cerb_code/lib/helpers.py                    -/
/- ----------------------------------------------------------------- -/

/-- What sits at a `.git` path: nothing, a real directory, a file, or
a symlink. -/
inductive GitEntry where
  | absent : GitEntry
  | realDir : GitEntry
  | fileEntry : GitEntry
  | symlinkTo (target : String) : GitEntry
deriving Repr, DecidableEq

/-- The filesystem state `ensure_stable_git_location` touches:
`{project_dir}/.git`, `{project_dir}/.git.backup`, and whether the
stable destination `~/.kerberos/repos/{basename}/.git` exists. -/
structure RelocFs where
  sourceGit : GitEntry
  sourceGitBackup : GitEntry
  stableExists : Bool
deriving Repr, DecidableEq

/-- `ensure_stable_git_location` (`helpers.py` lines 30-69),
`stablePath` abbreviating `~/.kerberos/repos/{basename}/.git`:
  * `.git` already a symlink → return (no-op);
  * `.git` missing or not a directory → log a warning and return;
  * stable destination already exists → move the current `.git` to
    `{.git}.backup`, symlink `.git` to the existing destination, and
    return — there is *no* failure branch for this case (the source
    carries the comment "handle duplicate names later");
  * otherwise move `.git` to the destination and symlink back.
The function returns `None` in Python; the embedding returns the
final filesystem state, with `Except` to show no branch raises. -/
def ensure_stable_git_location (stablePath : String) (fs : RelocFs) :
    Except String RelocFs :=
  match fs.sourceGit with
  | GitEntry.symlinkTo _ => .ok fs
  | GitEntry.realDir =>
      if fs.stableExists then
        .ok { fs with
              sourceGit := GitEntry.symlinkTo stablePath,
              sourceGitBackup := GitEntry.realDir }
      else
        .ok { fs with
              sourceGit := GitEntry.symlinkTo stablePath,
              stableExists := true }
  | _ => .ok fs

/-- C7 counterexample: `source_path/.git` is a real directory and the
stable destination already exists (pointing at some other repository's
relocated `.git`).  The claim says the operation fails; instead it
completes without error, moving the real `.git` to `.git.backup` and
symlinking `.git` to the pre-existing destination. -/
theorem ensure_stable_reuses_existing_destination :
    ensure_stable_git_location "/home/u/.kerberos/repos/proj/.git"
      ⟨GitEntry.realDir, GitEntry.absent, true⟩ =
      .ok ⟨GitEntry.symlinkTo "/home/u/.kerberos/repos/proj/.git",
           GitEntry.realDir, true⟩ := rfl

/-- C7 amended: relocation moves a real `.git` to the stable location
and symlinks the original; it is a no-op when `.git` is already a
symlink (idempotent) or when there is no `.git` directory; and when
the destination already exists it does not fail — it backs the real
`.git` up to `{.git}.backup` and symlinks to the pre-existing
destination. -/
theorem ensure_stable_git_location_semantics :
    (∀ (sp t : String) (b : GitEntry) (se : Bool),
      ensure_stable_git_location sp ⟨GitEntry.symlinkTo t, b, se⟩ =
        .ok ⟨GitEntry.symlinkTo t, b, se⟩) ∧
    (∀ (sp : String) (b : GitEntry) (se : Bool),
      ensure_stable_git_location sp ⟨GitEntry.absent, b, se⟩ =
        .ok ⟨GitEntry.absent, b, se⟩) ∧
    (∀ (sp : String) (b : GitEntry) (se : Bool),
      ensure_stable_git_location sp ⟨GitEntry.fileEntry, b, se⟩ =
        .ok ⟨GitEntry.fileEntry, b, se⟩) ∧
    (∀ (sp : String) (b : GitEntry),
      ensure_stable_git_location sp ⟨GitEntry.realDir, b, false⟩ =
        .ok ⟨GitEntry.symlinkTo sp, b, true⟩) ∧
    (∀ (sp : String) (b : GitEntry),
      ensure_stable_git_location sp ⟨GitEntry.realDir, b, true⟩ =
        .ok ⟨GitEntry.symlinkTo sp, GitEntry.realDir, true⟩) := by
  refine ⟨?_, ?_, ?_, ?_, ?_⟩ <;> intros <;> rfl
